import Mathlib

/-!
Formal model of the `NutritionSystem` orchestration engine from
`src/system_integration.py`.

The orchestrator is embedded as pure state-passing functions over an
explicit `SysState`.  The six external collaborators (sensor manager,
nutrition analyzer, supplement recommender, intake manager, data
security, UI manager) are imported from modules that are not part of the
source tree; following the capability contracts of the specification they are
modelled as a record `Collab` of abstract behaviour functions, and every
collaborator invocation made by the orchestrator is recorded in an event
list, so that theorems can speak about which collaborator calls an
operation performs.  Python dicts are modelled as association lists with
the Python update-in-place semantics, a raised Python exception as the
`PyResult.exn` constructor, and `datetime.datetime.now()` as the
`now`/`today` fields of the state (one tick per operation).
-/

namespace Nutri

/-- A scalar value stored in a Python dict. -/
inductive Value where
  | str : String → Value
  | nat : Nat → Value
  | bool : Bool → Value
deriving DecidableEq

/-- Python truthiness of a `Value`, as used by `d.get(key, False)` guards. -/
def Value.truthy : Value → Bool
  | .str s => !s.isEmpty
  | .nat n => n != 0
  | .bool b => b

/-- A Python dict of scalars, as an association list in insertion order. -/
abbrev Dict := List (String × Value)

/-- Association-list lookup, Python `d.get(k)`. -/
def alookup {α : Type} : List (String × α) → String → Option α
  | [], _ => none
  | (k, v) :: t, key => if k = key then some v else alookup t key

/-- Python `d[k] = v`: update in place if the key is present, else append. -/
def aset {α : Type} : List (String × α) → String → α → List (String × α)
  | [], key, v => [(key, v)]
  | (k, w) :: t, key, v => if k = key then (key, v) :: t else (k, w) :: aset t key v

/-- Python `del d[k]` (removes every binding of the key). -/
def aerase {α : Type} : List (String × α) → String → List (String × α)
  | [], _ => []
  | (k, w) :: t, key => if k = key then aerase t key else (k, w) :: aerase t key

/-- Python `d.get(k, default)`. -/
def agetD {α : Type} (d : List (String × α)) (key : String) (v₀ : α) : α :=
  (alookup d key).getD v₀

/-- Mutate the value stored under `key` in place. -/
def amapAt {α : Type} : List (String × α) → String → (α → α) → List (String × α)
  | [], _, _ => []
  | (k, w) :: t, key, f => if k = key then (k, f w) :: t else (k, w) :: amapAt t key f

/-- An alert produced by the analyzer: a message and an optional severity
string; the source reads it with `alert.get("severity", "medium")`. -/
structure Alert where
  message : String
  severity : Option String
deriving DecidableEq

/-- The analysis result as consumed by the orchestrator, which reads the
`update_recommendation` flag and the `alerts` list and forwards the rest
(`findings`) without inspecting it. -/
structure AnalysisResult where
  findings : Dict
  update_recommendation : Bool
  alerts : List Alert
deriving DecidableEq

/-- One collaborator invocation made by the orchestrator.  The deregister
events exist so that the rollback behaviour demanded by the specification
can be stated; `register_user` in the source never emits them. -/
inductive Event where
  | encryptData
  | decryptData
  | sensorRegister (uid : String)
  | analyzerRegister (uid : String)
  | recommenderRegister (uid : String)
  | intakeRegister (uid : String)
  | uiRegister (uid : String)
  | sensorDeregister (uid : String)
  | analyzerDeregister (uid : String)
  | recommenderDeregister (uid : String)
  | intakeDeregister (uid : String)
  | uiDeregister (uid : String)
  | sensorProcess (uid : String)
  | analyze (uid : String)
  | updateHealthData (uid : String)
  | recommend (uid : String)
  | updateSchedule (uid : String)
  | updateSupplementData (uid : String)
  | recordIntake (uid : String) (supplementId : String)
  | updateIntakeStatus (uid : String)
  | getHealthData (uid : String)
  | getSchedule (uid : String)
  | getComplianceRate (uid : String)
  | getIntakeHistory (uid : String)
  | getTrends (uid : String)
  | sendUrgentNotification (uid : String) (a : Alert)
  | sendNotification (uid : String) (a : Alert)
  | addToHealthReport (uid : String) (a : Alert)
  | notifyHealthcareProvider (uid : String) (a : Alert)
  | updateSensorSettings (uid : String)
  | updateAnalysisSettings (uid : String)
  | updateRecommendationSettings (uid : String)
  | updateIntakeSettings (uid : String)
  | updateUiSettings (uid : String)
  | startComponent (name : String)
  | stopComponent (name : String)
deriving DecidableEq

/-- Is the event one of the five collaborator deregistration calls? -/
def Event.isDeregister : Event → Bool
  | .sensorDeregister _ => true
  | .analyzerDeregister _ => true
  | .recommenderDeregister _ => true
  | .intakeDeregister _ => true
  | .uiDeregister _ => true
  | _ => false

/-- Outcome of a Python call: a returned value, or a raised exception. -/
inductive PyResult (α : Type) where
  | ok : α → PyResult α
  | exn : String → PyResult α
deriving DecidableEq

/-- Result dict of a public operation: either a success dict with a
payload or an error dict with a message (`{"status": ..., ...}`). -/
inductive OpResult (α : Type) where
  | success : α → OpResult α
  | error : String → OpResult α
deriving DecidableEq

/-- Payload of a successful operation result. -/
def payloadOf {α : Type} : OpResult α → Option α
  | .success a => some a
  | .error _ => none

/-- The per-user profile dict created by `register_user`.  The five fixed
keys are fields; `extra` holds any further keys of the profile dict
(`handle_health_alert` reads the flag `notify_healthcare_provider` from
this dict; `register_user` itself never adds such a key, so it is created
empty). -/
structure UserProfile where
  id : String
  encrypted_data : Dict
  registered_at : Nat
  last_activity : Nat
  components : List (String × Value)
  extra : Dict
deriving DecidableEq

/-- The mutable state of a `NutritionSystem` instance. -/
structure SysState where
  is_running : Bool
  active_users : List (String × UserProfile)
  now : Nat
  today : Int
deriving DecidableEq

/-- Result of one orchestrator operation: return value, post-state and the
ordered list of collaborator calls made during the operation. -/
structure OpOut (α : Type) where
  result : α
  state : SysState
  events : List Event
deriving DecidableEq

/-- Behaviour of the external collaborators (their modules are absent from
the source tree; modelled from the capability contracts in the specification).
Registration calls may raise (`PyResult.exn`); the remaining calls are
modelled as total functions, since no claim concerns their failure. -/
structure Collab where
  encrypt_user_data : Dict → Dict
  decrypt_user_data : Dict → Dict
  sensor_register : String → Dict → PyResult Value
  analyzer_register : String → Dict → PyResult Value
  recommender_register : String → Dict → PyResult Value
  intake_register : String → Dict → PyResult Value
  ui_register : String → Dict → PyResult Value
  process_data : String → Dict → Dict
  analyze : String → Dict → AnalysisResult
  recommend : String → AnalysisResult → Dict
  record_intake : String → String → Option Nat → Dict
  get_health_data : String → Option (Int × Int) → Dict
  get_schedule : String → Dict
  get_compliance_rate : String → Option (Int × Int) → Dict
  get_intake_history : String → Int → Int → Dict
  get_trends : String → Int → Int → Dict

/-- `user_id in self.active_users` / `self.active_users[user_id]`. -/
def lookupUser (s : SysState) (uid : String) : Option UserProfile :=
  alookup s.active_users uid

/-- `self.active_users[user_id]["last_activity"] = datetime.now().isoformat()`. -/
def setLastActivity (s : SysState) (uid : String) : SysState :=
  { s with active_users :=
      amapAt s.active_users uid (fun p => { p with last_activity := s.now }) }

/-- The `last_activity` timestamp currently stored for a user. -/
def lastActivityOf (s : SysState) (uid : String) : Option Nat :=
  (lookupUser s uid).map (fun p => p.last_activity)

/-- `start`: no-op returning `False` when already running, otherwise starts
all six components in order and sets the running flag. -/
def start (s : SysState) : OpOut Bool :=
  if s.is_running then ⟨false, s, []⟩
  else
    ⟨true, { s with is_running := true },
      [.startComponent "sensor_manager", .startComponent "nutrition_analyzer",
       .startComponent "supplement_recommender", .startComponent "intake_manager",
       .startComponent "data_security", .startComponent "ui_manager"]⟩

/-- `stop`: no-op returning `False` when not running, otherwise stops the
components in reverse order and clears the running flag. -/
def stop (s : SysState) : OpOut Bool :=
  if !s.is_running then ⟨false, s, []⟩
  else
    ⟨true, { s with is_running := false },
      [.stopComponent "ui_manager", .stopComponent "data_security",
       .stopComponent "intake_manager", .stopComponent "supplement_recommender",
       .stopComponent "nutrition_analyzer", .stopComponent "sensor_manager"]⟩

/-- The five sequential collaborator registrations of `register_user`, in
source order; stops at the first raised exception.  Returns the component
token map on success, paired with the collaborator calls actually made. -/
def registerCollabs (c : Collab) (uid : String) (ud : Dict) :
    PyResult (List (String × Value)) × List Event :=
  match c.sensor_register uid ud with
  | .exn e => (.exn e, [.sensorRegister uid])
  | .ok t1 =>
    match c.analyzer_register uid ud with
    | .exn e => (.exn e, [.sensorRegister uid, .analyzerRegister uid])
    | .ok t2 =>
      match c.recommender_register uid ud with
      | .exn e =>
        (.exn e, [.sensorRegister uid, .analyzerRegister uid, .recommenderRegister uid])
      | .ok t3 =>
        match c.intake_register uid ud with
        | .exn e =>
          (.exn e, [.sensorRegister uid, .analyzerRegister uid,
                    .recommenderRegister uid, .intakeRegister uid])
        | .ok t4 =>
          match c.ui_register uid ud with
          | .exn e =>
            (.exn e, [.sensorRegister uid, .analyzerRegister uid,
                      .recommenderRegister uid, .intakeRegister uid, .uiRegister uid])
          | .ok t5 =>
            (.ok [("sensor", t1), ("analyzer", t2), ("recommender", t3),
                  ("intake_manager", t4), ("ui", t5)],
             [.sensorRegister uid, .analyzerRegister uid, .recommenderRegister uid,
              .intakeRegister uid, .uiRegister uid])

/-- `register_user`: returns `False` without side effects when the id is
already registered; otherwise encrypts the user data, registers the id
with the five collaborators in order, and only after all five succeeded
inserts the profile into `active_users`.  A collaborator exception
propagates; nothing is rolled back. -/
def register_user (c : Collab) (s : SysState) (uid : String) (ud : Dict) :
    OpOut (PyResult Bool) :=
  if (lookupUser s uid).isSome then ⟨.ok false, s, []⟩
  else
    let enc := c.encrypt_user_data ud
    match registerCollabs c uid ud with
    | (.exn e, evs) => ⟨.exn e, s, Event.encryptData :: evs⟩
    | (.ok comps, evs) =>
      let profile : UserProfile :=
        { id := uid, encrypted_data := enc, registered_at := s.now,
          last_activity := s.now, components := comps, extra := [] }
      ⟨.ok true, { s with active_users := s.active_users ++ [(uid, profile)] },
        Event.encryptData :: evs⟩

/-- `handle_health_alert`: severity-indexed dispatch.  `high` sends the
urgent notification and then, if the profile dict flag
`notify_healthcare_provider` is truthy, notifies the healthcare
provider; `medium` sends a standard notification; anything else takes the
low branch and only appends to the health report.  The registry lookup on
the high path raises (`KeyError`) for an unknown id. -/
def handle_health_alert (s : SysState) (uid : String) (a : Alert) :
    OpOut (PyResult Bool) :=
  let severity := a.severity.getD "medium"
  if severity = "high" then
    match lookupUser s uid with
    | none => ⟨.exn "KeyError", s, [.sendUrgentNotification uid a]⟩
    | some p =>
      if (agetD p.extra "notify_healthcare_provider" (Value.bool false)).truthy then
        ⟨.ok true, s, [.sendUrgentNotification uid a, .notifyHealthcareProvider uid a]⟩
      else
        ⟨.ok true, s, [.sendUrgentNotification uid a]⟩
  else if severity = "medium" then
    ⟨.ok true, s, [.sendNotification uid a]⟩
  else
    ⟨.ok true, s, [.addToHealthReport uid a]⟩

/-- `update_recommendations`: for a registered id, asks the recommender
for a new recommendation set, pushes it to the intake manager as the new
schedule and forwards it to the UI.  Note: the source never touches
`last_activity` here, so the state is returned unchanged. -/
def update_recommendations (c : Collab) (s : SysState) (uid : String)
    (ar : AnalysisResult) : OpOut (OpResult Dict) :=
  match lookupUser s uid with
  | none => ⟨.error "User not registered", s, []⟩
  | some _ =>
    let recs := c.recommend uid ar
    ⟨.success recs, s, [.recommend uid, .updateSchedule uid, .updateSupplementData uid]⟩

/-- The alert loop of `process_sensor_data`: each alert is handled in
order with the state current at the loop.  `handle_health_alert` never
mutates the state, and for a registered id it never raises, so the loop
only accumulates the collaborator calls; the per-alert return values are
discarded as in the source. -/
def alertLoop (s : SysState) (uid : String) : List Alert → List Event
  | [] => []
  | a :: rest => (handle_health_alert s uid a).events ++ alertLoop s uid rest

/-- `process_sensor_data`: for a registered id, updates `last_activity`,
validates the payload, analyzes it, conditionally runs
`update_recommendations`, dispatches each alert, forwards the result to
the UI and returns the analysis result. -/
def process_sensor_data (c : Collab) (s : SysState) (uid : String) (sd : Dict) :
    OpOut (OpResult AnalysisResult) :=
  match lookupUser s uid with
  | none => ⟨.error "User not registered", s, []⟩
  | some _ =>
    let s1 := setLastActivity s uid
    let validated := c.process_data uid sd
    let ar := c.analyze uid validated
    let s2 := if ar.update_recommendation
              then (update_recommendations c s1 uid ar).state else s1
    let recEvents := if ar.update_recommendation
                     then (update_recommendations c s1 uid ar).events else []
    ⟨.success ar, s2,
      [.sensorProcess uid, .analyze uid] ++ recEvents
        ++ alertLoop s2 uid ar.alerts ++ [.updateHealthData uid]⟩

/-- `record_supplement_intake`: for a registered id, updates
`last_activity`, records the intake with the intake manager and forwards
the record to the UI. -/
def record_supplement_intake (c : Collab) (s : SysState) (uid : String)
    (supplement_id : String) (intake_time : Option Nat) : OpOut (OpResult Dict) :=
  match lookupUser s uid with
  | none => ⟨.error "User not registered", s, []⟩
  | some _ =>
    let s1 := setLastActivity s uid
    let r := c.record_intake uid supplement_id intake_time
    ⟨.success r, s1, [.recordIntake uid supplement_id, .updateIntakeStatus uid]⟩

/-- The dashboard payload composed by `get_user_dashboard`. -/
structure Dashboard where
  health_data : Dict
  supplement_data : Dict
  compliance_data : Dict
deriving DecidableEq

/-- `get_user_dashboard`: for a registered id, updates `last_activity` and
composes health, schedule and compliance data from the collaborators. -/
def get_user_dashboard (c : Collab) (s : SysState) (uid : String) :
    OpOut (OpResult Dashboard) :=
  match lookupUser s uid with
  | none => ⟨.error "User not registered", s, []⟩
  | some _ =>
    let s1 := setLastActivity s uid
    let health := c.get_health_data uid none
    let sched := c.get_schedule uid
    let compliance := c.get_compliance_rate uid none
    ⟨.success ⟨health, sched, compliance⟩, s1,
      [.getHealthData uid, .getSchedule uid, .getComplianceRate uid]⟩

/-- The report dict built by `get_health_report`. -/
structure Report where
  user_id : String
  report_type : String
  start_date : Int
  end_date : Int
  generated_at : Nat
  health_data : Dict
  supplement_data : Dict
  compliance_data : Dict
  trends : Dict
deriving DecidableEq

/-- `get_health_report`: for a registered id, updates `last_activity`,
computes the date window from the report type (`daily` = today only,
`weekly` = the last 7 days, `monthly` = the last 30 days; anything else is
an error returned before any collaborator data is fetched) and composes
the report from the collaborators. -/
def get_health_report (c : Collab) (s : SysState) (uid : String)
    (report_type : String) : OpOut (OpResult Report) :=
  match lookupUser s uid with
  | none => ⟨.error "User not registered", s, []⟩
  | some _ =>
    let s1 := setLastActivity s uid
    let end_date : Int := s.today
    let startOpt : Option Int :=
      if report_type = "daily" then some end_date
      else if report_type = "weekly" then some (end_date - 7)
      else if report_type = "monthly" then some (end_date - 30)
      else none
    match startOpt with
    | none => ⟨.error ("Invalid report type: " ++ report_type), s1, []⟩
    | some start_date =>
      let health := c.get_health_data uid (some (start_date, end_date))
      let supplement := c.get_intake_history uid start_date end_date
      let compliance := c.get_compliance_rate uid (some (start_date, end_date))
      let trends := c.get_trends uid start_date end_date
      ⟨.success
          { user_id := uid, report_type := report_type, start_date := start_date,
            end_date := end_date, generated_at := s.now, health_data := health,
            supplement_data := supplement, compliance_data := compliance,
            trends := trends }, s1,
        [.getHealthData uid, .getIntakeHistory uid, .getComplianceRate uid,
         .getTrends uid]⟩

/-- `get_user_profile`: for a registered id, updates `last_activity`,
decrypts the stored payload, deletes the `password` key when present, and
adds the registration and (already updated) activity timestamps.  The
stored encrypted payload is not modified. -/
def get_user_profile (c : Collab) (s : SysState) (uid : String) :
    OpOut (OpResult Dict) :=
  match lookupUser s uid with
  | none => ⟨.error "User not registered", s, []⟩
  | some p =>
    let s1 := setLastActivity s uid
    let ud := c.decrypt_user_data p.encrypted_data
    let ud1 := if (alookup ud "password").isSome then aerase ud "password" else ud
    let ud2 := aset (aset ud1 "registered_at" (Value.nat p.registered_at))
      "last_activity" (Value.nat s.now)
    ⟨.success ud2, s1, [.decryptData]⟩

/-- The five recognized settings toggles of `update_user_profile`, each
forwarding the patch to one collaborator when its key is truthy. -/
def settingsEvents (uid : String) (update_data : Dict) : List Event :=
  (if (agetD update_data "update_sensor_settings" (Value.bool false)).truthy
   then [Event.updateSensorSettings uid] else []) ++
  (if (agetD update_data "update_analysis_settings" (Value.bool false)).truthy
   then [Event.updateAnalysisSettings uid] else []) ++
  (if (agetD update_data "update_recommendation_settings" (Value.bool false)).truthy
   then [Event.updateRecommendationSettings uid] else []) ++
  (if (agetD update_data "update_intake_settings" (Value.bool false)).truthy
   then [Event.updateIntakeSettings uid] else []) ++
  (if (agetD update_data "update_ui_settings" (Value.bool false)).truthy
   then [Event.updateUiSettings uid] else [])

/-- `update_user_profile`: for a registered id, updates `last_activity`,
decrypts the stored payload, merges the patch keys over it
(last-writer-wins per key), re-encrypts and stores the result, then
forwards the patch to each collaborator whose settings toggle is set. -/
def update_user_profile (c : Collab) (s : SysState) (uid : String)
    (update_data : Dict) : OpOut (OpResult String) :=
  match lookupUser s uid with
  | none => ⟨.error "User not registered", s, []⟩
  | some p =>
    let s1 := setLastActivity s uid
    let ud := c.decrypt_user_data p.encrypted_data
    let merged := update_data.foldl (fun d kv => aset d kv.1 kv.2) ud
    let enc := c.encrypt_user_data merged
    let au2 := amapAt s1.active_users uid (fun q => { q with encrypted_data := enc })
    let s2 := { s1 with active_users := au2 }
    ⟨.success "Profile updated successfully", s2,
      [Event.decryptData, Event.encryptData] ++ settingsEvents uid update_data⟩

/-! ## Concrete fixtures used by witnesses and counterexamples -/

/-- A concrete collaborator behaviour: identity security gateway,
always-successful registrations, trivial analysis and empty data
sources. -/
def baseCollab : Collab where
  encrypt_user_data := fun d => d
  decrypt_user_data := fun d => d
  sensor_register := fun _ _ => .ok (Value.str "tok-sensor")
  analyzer_register := fun _ _ => .ok (Value.str "tok-analyzer")
  recommender_register := fun _ _ => .ok (Value.str "tok-recommender")
  intake_register := fun _ _ => .ok (Value.str "tok-intake")
  ui_register := fun _ _ => .ok (Value.str "tok-ui")
  process_data := fun _ d => d
  analyze := fun _ _ => { findings := [], update_recommendation := false, alerts := [] }
  recommend := fun _ _ => [("supplement", Value.str "vitamin-d")]
  record_intake := fun _ _ _ => [("recorded", Value.bool true)]
  get_health_data := fun _ _ => []
  get_schedule := fun _ => []
  get_compliance_rate := fun _ _ => []
  get_intake_history := fun _ _ _ => []
  get_trends := fun _ _ _ => []

/-- Same collaborators, but the third registration (the recommender)
raises. -/
def collabFail3 : Collab :=
  { baseCollab with recommender_register := fun _ _ => .exn "registration failed" }

def exData : Dict := [("name", Value.str "John")]

/-- A running system with no registered users, at time 100 on day 19884. -/
def exState : SysState :=
  { is_running := true, active_users := [], now := 100, today := 19884 }

/-- A profile registered at time 5, with no extra profile keys. -/
def exProfile : UserProfile :=
  { id := "u1", encrypted_data := exData, registered_at := 5, last_activity := 5,
    components := [], extra := [] }

/-- A running system with the single registered user `u1`. -/
def exStateReg : SysState :=
  { is_running := true, active_users := [("u1", exProfile)], now := 100, today := 19884 }

/-- `exProfile` with the healthcare-provider flag set on the profile dict. -/
def exProfileNotify : UserProfile :=
  { exProfile with extra := [("notify_healthcare_provider", Value.bool true)] }

def exStateNotify : SysState :=
  { exStateReg with active_users := [("u1", exProfileNotify)] }

/-- `exProfile` whose decrypted payload contains a `password` key (the
identity gateway of `baseCollab` decrypts it to itself). -/
def exProfilePw : UserProfile :=
  { exProfile with
      encrypted_data := [("password", Value.str "secret"), ("name", Value.str "John")] }

def exStatePw : SysState :=
  { exStateReg with active_users := [("u1", exProfilePw)] }

def exAnalysis : AnalysisResult :=
  { findings := [], update_recommendation := false, alerts := [] }

def exAlertHigh : Alert := { message := "critical glucose", severity := some "high" }

/-! ## Helper lemmas -/

theorem alookup_append_miss {α : Type} (l : List (String × α)) (k : String) (v : α)
    (h : alookup l k = none) : alookup (l ++ [(k, v)]) k = some v := by
  induction l with
  | nil => simp [alookup]
  | cons hd t ih =>
    obtain ⟨k0, w⟩ := hd
    by_cases hk : k0 = k
    · simp [alookup, hk] at h
    · simp only [List.cons_append, alookup, if_neg hk] at h ⊢
      exact ih h

theorem alookup_amapAt {α : Type} (l : List (String × α)) (k : String) (f : α → α) :
    alookup (amapAt l k f) k = (alookup l k).map f := by
  induction l with
  | nil => simp [alookup, amapAt]
  | cons hd t ih =>
    obtain ⟨k0, w⟩ := hd
    by_cases hk : k0 = k
    · simp [alookup, amapAt, hk]
    · simp [alookup, amapAt, hk, ih]

theorem alookup_aset_ne {α : Type} (l : List (String × α)) (k key : String) (v : α)
    (h : k ≠ key) : alookup (aset l key v) k = alookup l k := by
  induction l with
  | nil => simp [alookup, aset, Ne.symm h]
  | cons hd t ih =>
    obtain ⟨k0, w⟩ := hd
    by_cases hk : k0 = key
    · subst hk
      simp [alookup, aset, Ne.symm h]
    · by_cases hk2 : k0 = k
      · subst hk2
        simp [alookup, aset, hk, h]
      · simp [alookup, aset, hk, hk2, ih]

theorem alookup_aerase_self {α : Type} (l : List (String × α)) (key : String) :
    alookup (aerase l key) key = none := by
  induction l with
  | nil => rfl
  | cons hd t ih =>
    obtain ⟨k0, w⟩ := hd
    by_cases hk : k0 = key
    · simpa [aerase, hk] using ih
    · simp [aerase, alookup, hk, ih]

theorem lookupUser_setLastActivity (s : SysState) (uid : String) :
    lookupUser (setLastActivity s uid) uid =
      (lookupUser s uid).map (fun p => { p with last_activity := s.now }) := by
  simp [lookupUser, setLastActivity, alookup_amapAt]

/-- No branch of the five sequential registrations emits a deregister
call. -/
theorem registerCollabs_no_deregister (c : Collab) (uid : String) (ud : Dict) :
    ((registerCollabs c uid ud).2.all (fun e => !e.isDeregister)) = true := by
  unfold registerCollabs
  repeat' split
  all_goals rfl

/-- An id that is already visible in the registry is rejected by
`register_user` with no state change and no collaborator call. -/
theorem register_user_present (c : Collab) (s : SysState) (uid : String) (ud : Dict)
    (h : (lookupUser s uid).isSome = true) :
    register_user c s uid ud = ⟨PyResult.ok false, s, []⟩ := by
  simp [register_user, h]

/-- A `register_user` call that returned `True` left the id visible in
the registry. -/
theorem register_success_visible (c : Collab) (s : SysState) (uid : String) (ud : Dict)
    (h : (register_user c s uid ud).result = PyResult.ok true) :
    (lookupUser (register_user c s uid ud).state uid).isSome = true := by
  unfold register_user at h ⊢
  by_cases hg : (lookupUser s uid).isSome = true
  · rw [if_pos hg] at h
    simp at h
  · rw [if_neg hg] at h ⊢
    rcases hrc : registerCollabs c uid ud with ⟨res, evs⟩
    rw [hrc] at h
    cases res with
    | exn e => simp at h
    | ok comps =>
      have hnone : alookup s.active_users uid = none := by
        cases hx : lookupUser s uid with
        | none => exact hx
        | some p => rw [hx] at hg; simp at hg
      simp [lookupUser, alookup_append_miss _ _ _ hnone]

/-- `update_recommendations` returns the state unchanged in every case. -/
theorem update_recommendations_state (c : Collab) (s : SysState) (uid : String)
    (ar : AnalysisResult) : (update_recommendations c s uid ar).state = s := by
  cases hx : lookupUser s uid <;> simp [update_recommendations, hx]

/-! ## Claim theorems -/

/-- C9: `start` when the system is already running returns `False` and
changes nothing (no component is started again); otherwise it returns
`True`, starts the six components in order and sets the running flag.
`stop` is symmetric: it returns `False` and changes nothing when the
system is not running, and otherwise returns `True`, stops the components
in reverse order and clears the flag. -/
theorem start_stop_idempotent (s : SysState) :
    (s.is_running = true → start s = ⟨false, s, []⟩) ∧
    (s.is_running = false →
      start s = ⟨true, { s with is_running := true },
        [.startComponent "sensor_manager", .startComponent "nutrition_analyzer",
         .startComponent "supplement_recommender", .startComponent "intake_manager",
         .startComponent "data_security", .startComponent "ui_manager"]⟩) ∧
    (s.is_running = false → stop s = ⟨false, s, []⟩) ∧
    (s.is_running = true →
      stop s = ⟨true, { s with is_running := false },
        [.stopComponent "ui_manager", .stopComponent "data_security",
         .stopComponent "intake_manager", .stopComponent "supplement_recommender",
         .stopComponent "nutrition_analyzer", .stopComponent "sensor_manager"]⟩) := by
  refine ⟨fun h => ?_, fun h => ?_, fun h => ?_, fun h => ?_⟩ <;> simp [start, stop, h]

/-- Witness for `start_stop_idempotent`: starting the already-running
concrete state is a no-op returning `false`. -/
theorem start_stop_idempotent_witness : start exState = ⟨false, exState, []⟩ :=
  (start_stop_idempotent exState).1 rfl

/-- C2: a second `register_user` call for an id that a first call
successfully registered returns the failure result `False` without
raising, makes no collaborator call, and leaves the state established by
the first registration unchanged. -/
theorem register_duplicate_rejected (c cB : Collab) (s : SysState) (uid : String)
    (ud udB : Dict) (h : (register_user c s uid ud).result = PyResult.ok true) :
    register_user cB (register_user c s uid ud).state uid udB =
      ⟨PyResult.ok false, (register_user c s uid ud).state, []⟩ :=
  register_user_present cB _ uid udB (register_success_visible c s uid ud h)

/-- Witness for `register_duplicate_rejected`: registering `u1` twice on
the empty registry. -/
theorem register_duplicate_rejected_witness :
    register_user baseCollab (register_user baseCollab exState "u1" exData).state
        "u1" exData =
      ⟨PyResult.ok false, (register_user baseCollab exState "u1" exData).state, []⟩ :=
  register_duplicate_rejected baseCollab baseCollab exState "u1" exData exData
    (by decide)

/-- C3: every public operation on an id absent from the registry returns
the `NotFound`-style error result, mutates nothing, and makes no
collaborator call. -/
theorem unknown_id_rejected (c : Collab) (s : SysState) (uid : String)
    (sd patch : Dict) (ar : AnalysisResult) (sup : String) (t : Option Nat)
    (rt : String) (h : lookupUser s uid = none) :
    process_sensor_data c s uid sd = ⟨.error "User not registered", s, []⟩ ∧
    update_recommendations c s uid ar = ⟨.error "User not registered", s, []⟩ ∧
    record_supplement_intake c s uid sup t = ⟨.error "User not registered", s, []⟩ ∧
    get_user_dashboard c s uid = ⟨.error "User not registered", s, []⟩ ∧
    get_health_report c s uid rt = ⟨.error "User not registered", s, []⟩ ∧
    get_user_profile c s uid = ⟨.error "User not registered", s, []⟩ ∧
    update_user_profile c s uid patch = ⟨.error "User not registered", s, []⟩ := by
  refine ⟨?_, ?_, ?_, ?_, ?_, ?_, ?_⟩ <;>
    simp [process_sensor_data, update_recommendations, record_supplement_intake,
      get_user_dashboard, get_health_report, get_user_profile, update_user_profile, h]

/-- Witness for `unknown_id_rejected`: the id `ghost` on a registry
holding only `u1`. -/
theorem unknown_id_rejected_witness :
    process_sensor_data baseCollab exStateReg "ghost" [] =
      ⟨.error "User not registered", exStateReg, []⟩ ∧
    get_user_dashboard baseCollab exStateReg "ghost" =
      ⟨.error "User not registered", exStateReg, []⟩ := by
  have h := unknown_id_rejected baseCollab exStateReg "ghost" [] [] exAnalysis "s1"
    none "daily" (by decide)
  exact ⟨h.1, h.2.2.2.1⟩

/-- C1 (amended): `register_user` is atomic with respect to registry
visibility but performs no rollback.  For a fresh id, the call returns
`True` exactly when the id became visible in the registry (the profile is
inserted only after all five collaborator registrations succeeded), and
when a collaborator registration raises, the error propagates and no
registry entry is created; but the collaborators already registered are
never asked to deregister — no deregistration call occurs on any path. -/
theorem register_no_rollback (c : Collab) (s : SysState) (uid : String) (ud : Dict)
    (h : lookupUser s uid = none) :
    ((register_user c s uid ud).result = PyResult.ok true ↔
      (lookupUser (register_user c s uid ud).state uid).isSome = true) ∧
    (∀ e, (register_user c s uid ud).result = PyResult.exn e →
      (register_user c s uid ud).state = s) ∧
    (∀ ev, ev ∈ (register_user c s uid ud).events → ev.isDeregister = false) := by
  have hall := registerCollabs_no_deregister c uid ud
  rw [List.all_eq_true] at hall
  have h2 : alookup s.active_users uid = none := by simpa [lookupUser] using h
  have hg : ¬(lookupUser s uid).isSome = true := by simp [h]
  unfold register_user
  rw [if_neg hg]
  rcases hrc : registerCollabs c uid ud with ⟨res, evs⟩
  rw [hrc] at hall
  cases res with
  | exn e =>
    refine ⟨?_, ?_, ?_⟩
    · constructor
      · intro hk
        simp at hk
      · intro hk
        simp [lookupUser, h2] at hk
    · intro e2 _
      rfl
    · intro ev hev
      dsimp only at hev
      rcases List.mem_cons.mp hev with rfl | hev2
      · rfl
      · simpa using hall ev hev2
  | ok comps =>
    refine ⟨?_, ?_, ?_⟩
    · constructor
      · intro _
        simp [lookupUser, alookup_append_miss _ _ _ h2]
      · intro _
        rfl
    · intro e2 he2
      simp at he2
    · intro ev hev
      dsimp only at hev
      rcases List.mem_cons.mp hev with rfl | hev2
      · rfl
      · simpa using hall ev hev2

/-- Witness for `register_no_rollback`: the failing concrete registration
leaves the registry unchanged. -/
theorem register_no_rollback_witness :
    (register_user collabFail3 exState "u1" exData).state = exState := by
  have h := register_no_rollback collabFail3 exState "u1" exData (by decide)
  exact h.2.1 "registration failed" (by decide)

/-- C1 counterexample: with collaborators whose third registration raises,
`register_user` on a fresh id propagates the error and creates no registry
entry, but the sensor and analyzer collaborators — already registered at
that point — receive no deregistration call: the recorded collaborator
calls are exactly the encryption and the four registration attempts, with
no deregistration among them. -/
theorem register_rollback_cex :
    (register_user collabFail3 exState "u1" exData).result =
      PyResult.exn "registration failed" ∧
    (register_user collabFail3 exState "u1" exData).state = exState ∧
    (register_user collabFail3 exState "u1" exData).events =
      [Event.encryptData, Event.sensorRegister "u1", Event.analyzerRegister "u1",
       Event.recommenderRegister "u1"] ∧
    Event.sensorDeregister "u1" ∉
      (register_user collabFail3 exState "u1" exData).events ∧
    Event.analyzerDeregister "u1" ∉
      (register_user collabFail3 exState "u1" exData).events := by
  refine ⟨rfl, rfl, rfl, ?_, ?_⟩ <;> decide

/-- C4: alert dispatch is a pure severity-indexed fan-out.  For a
registered user, a `high` alert always produces exactly one urgent
notification, plus exactly one healthcare-provider notification iff the
profile dict setting `notify_healthcare_provider` is truthy; a `medium`
alert produces exactly one standard notification and nothing else; a
`low` alert produces only a health-report append and no outbound
notification.  The state is never modified. -/
theorem alert_fanout (s : SysState) (uid : String) (p : UserProfile) (a : Alert)
    (h : lookupUser s uid = some p) :
    (a.severity = some "high" →
      handle_health_alert s uid a =
        ⟨PyResult.ok true, s,
          if (agetD p.extra "notify_healthcare_provider" (Value.bool false)).truthy
          then [Event.sendUrgentNotification uid a,
                Event.notifyHealthcareProvider uid a]
          else [Event.sendUrgentNotification uid a]⟩) ∧
    (a.severity = some "medium" →
      handle_health_alert s uid a =
        ⟨PyResult.ok true, s, [Event.sendNotification uid a]⟩) ∧
    (a.severity = some "low" →
      handle_health_alert s uid a =
        ⟨PyResult.ok true, s, [Event.addToHealthReport uid a]⟩) := by
  refine ⟨fun hs => ?_, fun hs => ?_, fun hs => ?_⟩ <;>
    simp [handle_health_alert, hs, h]
  split <;> rfl

/-- Witness for `alert_fanout`: a high alert for a user whose profile dict
carries a truthy healthcare-provider flag yields exactly the urgent and
the provider notification. -/
theorem alert_fanout_witness :
    handle_health_alert exStateNotify "u1" exAlertHigh =
      ⟨PyResult.ok true, exStateNotify,
        [Event.sendUrgentNotification "u1" exAlertHigh,
         Event.notifyHealthcareProvider "u1" exAlertHigh]⟩ := by
  have h := (alert_fanout exStateNotify "u1" exProfileNotify exAlertHigh
    (by decide)).1 rfl
  rw [h]
  decide

/-- C5 (amended): an alert with an absent severity field is handled as
`medium` (exactly one standard notification); but an alert whose severity
is present and is neither `high` nor `medium` — `low` as well as every
unknown value — takes the low branch: only a health-report append and no
notification.  Only the absent case defaults to `medium`. -/
theorem alert_default_severity (s : SysState) (uid : String) (a : Alert) :
    (a.severity = none →
      handle_health_alert s uid a =
        ⟨PyResult.ok true, s, [Event.sendNotification uid a]⟩) ∧
    (∀ v, a.severity = some v → v ≠ "high" → v ≠ "medium" →
      handle_health_alert s uid a =
        ⟨PyResult.ok true, s, [Event.addToHealthReport uid a]⟩) := by
  constructor
  · intro hs
    simp [handle_health_alert, hs]
  · intro v hs hv1 hv2
    simp [handle_health_alert, hs, hv1, hv2]

/-- Witness for `alert_default_severity`: an alert with no severity field
is dispatched as a standard notification. -/
theorem alert_default_severity_witness :
    handle_health_alert exStateReg "u1" { message := "m", severity := none } =
      ⟨PyResult.ok true, exStateReg,
        [Event.sendNotification "u1" { message := "m", severity := none }]⟩ :=
  (alert_default_severity exStateReg "u1" { message := "m", severity := none }).1 rfl

/-- C5 counterexample: an alert carrying the unknown severity `critical`
is not handled like `medium` — it produces only a health-report append,
unlike a `medium` alert, which produces a standard notification. -/
theorem alert_unknown_severity_cex :
    handle_health_alert exStateReg "u1" { message := "m", severity := some "critical" } =
      ⟨PyResult.ok true, exStateReg,
        [Event.addToHealthReport "u1" { message := "m", severity := some "critical" }]⟩ ∧
    handle_health_alert exStateReg "u1" { message := "m", severity := some "medium" } =
      ⟨PyResult.ok true, exStateReg,
        [Event.sendNotification "u1" { message := "m", severity := some "medium" }]⟩ := by
  constructor <;> decide

/-- C6: for a registered id, `get_health_report` computes the window
`[today, today]` for `daily`, `[today - 7, today]` for `weekly` and
`[today - 30, today]` for `monthly`, and fails with the
invalid-report-type error for every other report type, making no
collaborator call in that case. -/
theorem report_windows (c : Collab) (s : SysState) (uid : String) (p : UserProfile)
    (rt : String) (h : lookupUser s uid = some p) :
    ((payloadOf (get_health_report c s uid "daily").result).map
        (fun r => (r.start_date, r.end_date)) = some (s.today, s.today)) ∧
    ((payloadOf (get_health_report c s uid "weekly").result).map
        (fun r => (r.start_date, r.end_date)) = some (s.today - 7, s.today)) ∧
    ((payloadOf (get_health_report c s uid "monthly").result).map
        (fun r => (r.start_date, r.end_date)) = some (s.today - 30, s.today)) ∧
    (rt ≠ "daily" → rt ≠ "weekly" → rt ≠ "monthly" →
      (get_health_report c s uid rt).result =
        OpResult.error ("Invalid report type: " ++ rt) ∧
      (get_health_report c s uid rt).events = []) := by
  refine ⟨?_, ?_, ?_, fun h1 h2 h3 => ?_⟩
  · simp [get_health_report, payloadOf, h]
  · simp [get_health_report, payloadOf, h]
  · simp [get_health_report, payloadOf, h]
  · simp [get_health_report, payloadOf, h, h1, h2, h3]

/-- Witness for `report_windows`: an unrecognized report type on the
concrete registered state is rejected without fetching collaborator
data. -/
theorem report_windows_witness :
    (get_health_report baseCollab exStateReg "u1" "yearly").result =
      OpResult.error ("Invalid report type: " ++ "yearly") ∧
    (get_health_report baseCollab exStateReg "u1" "yearly").events = [] := by
  have h := (report_windows baseCollab exStateReg "u1" exProfile "yearly"
    (by decide)).2.2.2
  exact h (by decide) (by decide) (by decide)

/-- C7 (amended): every public operation on a registered id that succeeds
stamps the `last_activity` of the user with the operation time — except
`update_recommendations`, which succeeds but leaves the state (and hence
`last_activity`) entirely unchanged. -/
theorem last_activity_policy (c : Collab) (s : SysState) (uid : String)
    (p : UserProfile) (sd patch : Dict) (ar : AnalysisResult) (sup : String)
    (t : Option Nat) (rt : String) (h : lookupUser s uid = some p) :
    lastActivityOf (process_sensor_data c s uid sd).state uid = some s.now ∧
    lastActivityOf (record_supplement_intake c s uid sup t).state uid = some s.now ∧
    lastActivityOf (get_user_dashboard c s uid).state uid = some s.now ∧
    lastActivityOf (get_health_report c s uid rt).state uid = some s.now ∧
    lastActivityOf (get_user_profile c s uid).state uid = some s.now ∧
    lastActivityOf (update_user_profile c s uid patch).state uid = some s.now ∧
    (update_recommendations c s uid ar).state = s ∧
    (update_recommendations c s uid ar).result =
      OpResult.success (c.recommend uid ar) := by
  have hA : lastActivityOf (setLastActivity s uid) uid = some s.now := by
    simp [lastActivityOf, lookupUser_setLastActivity, h]
  have hproc : (process_sensor_data c s uid sd).state = setLastActivity s uid := by
    simp [process_sensor_data, h, update_recommendations_state]
  have hrec : (record_supplement_intake c s uid sup t).state = setLastActivity s uid := by
    simp [record_supplement_intake, h]
  have hdash : (get_user_dashboard c s uid).state = setLastActivity s uid := by
    simp [get_user_dashboard, h]
  have hrep : (get_health_report c s uid rt).state = setLastActivity s uid := by
    simp only [get_health_report, h]
    split <;> rfl
  have hprof : (get_user_profile c s uid).state = setLastActivity s uid := by
    simp [get_user_profile, h]
  refine ⟨?_, ?_, ?_, ?_, ?_, ?_, update_recommendations_state c s uid ar, ?_⟩
  · rw [hproc]; exact hA
  · rw [hrec]; exact hA
  · rw [hdash]; exact hA
  · rw [hrep]; exact hA
  · rw [hprof]; exact hA
  · have hu : alookup s.active_users uid = some p := h
    simp [update_user_profile, h, hu, lastActivityOf, lookupUser, setLastActivity,
      alookup_amapAt]
  · simp [update_recommendations, h]

/-- Witness for `last_activity_policy`: the dashboard read on the
concrete state stamps `last_activity` with the current time. -/
theorem last_activity_policy_witness :
    lastActivityOf (get_user_dashboard baseCollab exStateReg "u1").state "u1" =
      some exStateReg.now := by
  have h := last_activity_policy baseCollab exStateReg "u1" exProfile [] []
    exAnalysis "s1" none "daily" (by decide)
  exact h.2.2.1

/-- C7 counterexample: `update_recommendations` on the registered user
`u1` succeeds, yet the `last_activity` of `u1` remains the registration-time
value 5 instead of being updated to the current time 100. -/
theorem update_recommendations_no_activity_cex :
    (update_recommendations baseCollab exStateReg "u1" exAnalysis).result =
      OpResult.success [("supplement", Value.str "vitamin-d")] ∧
    lastActivityOf
        (update_recommendations baseCollab exStateReg "u1" exAnalysis).state "u1" =
      some 5 ∧
    exStateReg.now = 100 := by
  refine ⟨rfl, rfl, rfl⟩

/-- C8: `update_user_profile` with an empty patch is identity on the
decrypted profile payload.  For any security gateway whose decryption
inverts its encryption, the decrypted payload stored for the user after
the call equals the decrypted payload before it, and the only
collaborator calls are the decryption and the re-encryption — no settings
update is forwarded. -/
theorem empty_patch_preserves_payload (c : Collab) (s : SysState) (uid : String)
    (p : UserProfile) (hsec : ∀ d, c.decrypt_user_data (c.encrypt_user_data d) = d)
    (h : lookupUser s uid = some p) :
    ((lookupUser (update_user_profile c s uid []).state uid).map
        (fun q => c.decrypt_user_data q.encrypted_data)) =
      some (c.decrypt_user_data p.encrypted_data) ∧
    (update_user_profile c s uid []).events =
      [Event.decryptData, Event.encryptData] ∧
    (update_user_profile c s uid []).result =
      OpResult.success "Profile updated successfully" := by
  have hu : alookup s.active_users uid = some p := h
  refine ⟨?_, ?_, ?_⟩
  · simp [update_user_profile, h, hu, lookupUser, setLastActivity, alookup_amapAt,
      hsec]
  · simp [update_user_profile, h, settingsEvents, agetD, alookup, Value.truthy]
  · simp [update_user_profile, h]

/-- Witness for `empty_patch_preserves_payload`, with the identity
gateway of `baseCollab` on the concrete registered state. -/
theorem empty_patch_preserves_payload_witness :
    (update_user_profile baseCollab exStateReg "u1" []).events =
      [Event.decryptData, Event.encryptData] := by
  have h := empty_patch_preserves_payload baseCollab exStateReg "u1" exProfile
    (fun d => rfl) (by decide)
  exact h.2.1

/-- C10: the profile returned by `get_user_profile` never contains a
`password` key — whatever the decrypted payload holds under `password` is
deleted before the timestamps are added — and the read leaves the stored
encrypted payload unchanged. -/
theorem profile_read_strips_password (c : Collab) (s : SysState) (uid : String)
    (p : UserProfile) (h : lookupUser s uid = some p) :
    ((payloadOf (get_user_profile c s uid).result).map
        (fun d => alookup d "password")) = some none ∧
    ((lookupUser (get_user_profile c s uid).state uid).map
        (fun q => q.encrypted_data)) = some p.encrypted_data := by
  constructor
  · have key : ∀ ud : Dict,
        alookup (aset (aset
            (if (alookup ud "password").isSome then aerase ud "password" else ud)
            "registered_at" (Value.nat p.registered_at))
          "last_activity" (Value.nat s.now)) "password" = none := by
      intro ud
      rw [alookup_aset_ne _ _ _ _ (by decide), alookup_aset_ne _ _ _ _ (by decide)]
      split
      · exact alookup_aerase_self ud "password"
      · rename_i hx
        cases hxx : alookup ud "password" with
        | none => rfl
        | some v => rw [hxx] at hx; simp at hx
    simp [get_user_profile, h, payloadOf, key]
  · have hu : alookup s.active_users uid = some p := h
    simp [get_user_profile, h, hu, lookupUser, setLastActivity, alookup_amapAt]

/-- Witness for `profile_read_strips_password`: the decrypted payload of
`u1` contains a password key, and the returned profile does not. -/
theorem profile_read_strips_password_witness :
    ((payloadOf (get_user_profile baseCollab exStatePw "u1").result).map
        (fun d => alookup d "password")) = some none := by
  have h := profile_read_strips_password baseCollab exStatePw "u1" exProfilePw
    (by decide)
  exact h.1

end Nutri
